import Mathlib

/-!
Shallow embedding of the AI response-selection and provider-fallback
orchestrator of ConectAI-JVA (file back-end/ai_manager.py).

Conventions of the embedding:
* Python strings become Lean `String`; the Python substring test `a in b`
  becomes `strContains b a`, an explicit character-list scan.
* `str.lower()` becomes `pyLower`, which lowercases ASCII letters and the
  Spanish uppercase accented letters; every character occurring in the
  keyword and phrase tables of the source is covered by this mapping.
* `Optional[str]` becomes `Option String`; Python truthiness of such a
  value (`if response:`) becomes `truthy`, which is false for `none` and
  for the empty string.
* `time.time()` becomes an explicit `now : Nat` argument (seconds); the
  mutable fields `gemini_cooldown_until` / `gemini_consecutive_429` of
  `AIManager` become the record `AIState`, passed and returned explicitly.
* The network calls `_call_openrouter` / `_call_gemini` are modelled as
  oracle functions of type `CallFn` supplied by the caller; apart from the
  rate-limit bookkeeping (modelled separately by `handle_gemini_error`)
  they do not touch orchestrator state, so a run of `generate_response`
  is a pure function of the two oracles.
* The side effect "a model was invoked" is made observable by returning
  the list of invoked model names next to the result (explicit state
  passing for the call trace).
-/

/-- `leadMatch p t` is true when the character list `p` is an initial
segment of `t`. Helper for the substring test. -/
def leadMatch : List Char → List Char → Bool
  | [], _ => true
  | _ :: _, [] => false
  | c :: p, d :: t => c == d && leadMatch p t

/-- `occursIn p t` is true when the character list `p` occurs contiguously
inside `t`. Helper for the substring test. -/
def occursIn (p : List Char) : List Char → Bool
  | [] => p.isEmpty
  | c :: t => leadMatch p (c :: t) || occursIn p t

/-- `strContains s pat` models the Python membership test `pat in s` on
strings: `pat` occurs as a contiguous substring of `s`. -/
def strContains (s pat : String) : Bool :=
  occursIn pat.data s.data

/-- Models Python `str.lower()` on one character, restricted to ASCII
letters and the Spanish uppercase accented letters; all characters of the
keyword, phrase and month tables of ai_manager.py are covered. Other
characters are left unchanged. -/
def pyLowerChar (c : Char) : Char :=
  if 'A' ≤ c && c ≤ 'Z' then Char.ofNat (c.toNat + 32)
  else if c == 'Á' then 'á'
  else if c == 'É' then 'é'
  else if c == 'Í' then 'í'
  else if c == 'Ó' then 'ó'
  else if c == 'Ú' then 'ú'
  else if c == 'Ü' then 'ü'
  else if c == 'Ñ' then 'ñ'
  else c

/-- Models Python `str.lower()` (see `pyLowerChar`). -/
def pyLower (s : String) : String :=
  ⟨s.data.map pyLowerChar⟩

/-- Python truthiness of an `Optional[str]` value: `None` and the empty
string are falsy, every other string is truthy. -/
def truthy : Option String → Bool
  | none => false
  | some s => !(s == "")

/-- QUERY_CLASSIFICATIONS of ai_manager.py (lines 21-37): the static
label-to-keyword-list mapping, in the insertion order of the Python dict,
which is its iteration order. -/
def QUERY_CLASSIFICATIONS : List (String × List String) :=
  [ ("matrícula", ["matrícula", "matricula", "matricularme", "inscripción"]),
    ("traslado", ["traslado", "trasladar", "cambiar de instituto"]),
    ("reserva", ["reserva", "reservar"]),
    ("reincorporación", ["reincorporación", "reincorporacion", "volver"]),
    ("cambio_turno", ["cambio de turno", "turno", "horario"]),
    ("titulación", ["titulación", "título", "bachiller", "titulado"]),
    ("costos", ["costo", "precio", "pago", "cuánto", "tarifa"]),
    ("fechas", ["fecha", "plazo", "cuándo", "cronograma"]),
    ("requisitos", ["requisito", "documento", "necesito"]),
    ("vacantes", ["vacante", "cupos", "disponibilidad"]),
    ("carreras", ["carrera", "programa", "especialidad"]),
    ("certificados", ["certificado", "constancia", "récord"]),
    ("becas", ["beca", "becado", "descuento", "exoneración"]),
    ("saludo", ["hola", "buenos días", "buenas tardes", "saludos"]),
    ("despedida", ["gracias", "adiós", "chau", "hasta luego"]) ]

/-- The loop body of `classify_query` (lines 129-132): scan the entries in
order, return the first label one of whose keywords occurs in the lowered
message, `general` when the table is exhausted. -/
def classify_go (low : String) : List (String × List String) → String
  | [] => "general"
  | (qtype, keywords) :: rest =>
    if keywords.any (fun kw => strContains low kw) then qtype
    else classify_go low rest

/-- `AIManager.classify_query` (lines 127-132). -/
def classify_query (message : String) : String :=
  classify_go (pyLower message) QUERY_CLASSIFICATIONS

/-- The `useless_phrases` list of `_is_useful_response` (lines 93-101),
in source order. -/
def useless_phrases : List String :=
  [ "no tengo información", "no encuentro información",
    "no se menciona en los documentos", "lo siento",
    "no puedo responder", "no hay documentos",
    "contacta a la secretaría",
    "no está especificado", "no se proporciona", "no se encuentra",
    "no aparece en el texto", "no se detalla", "no cuento con la información",
    "no se indica", "no se menciona", "no dispongo de información" ]

/-- The `months` list of `_is_useful_response` (line 120). -/
def months : List String :=
  [ "enero", "febrero", "marzo", "abril", "mayo", "junio", "julio",
    "agosto", "septiembre", "octubre", "noviembre", "diciembre" ]

/-- The money-sensitive labels of `_is_useful_response` (line 111). -/
def moneyLabels : List String := ["costos", "matrícula", "titulación"]

/-- The date-sensitive labels of `_is_useful_response` (line 119). -/
def dateLabels : List String := ["fechas", "cronograma"]

/-- `low` contains an ASCII digit. -/
def hasDigit (low : String) : Bool := low.data.any Char.isDigit

/-- Models `re.search(r's/\.|soles|\d+(\.\d+)?', low)` being a match (line
114): the regex is an alternation whose third branch matches any single
digit (the decimal part is optional), so a match exists exactly when `low`
contains the literal "s/.", the literal "soles", or at least one digit. -/
def has_money_figures (low : String) : Bool :=
  strContains low "s/." || strContains low "soles" || hasDigit low

/-- Models `re.search(r'\d{1,2}', low)` being a match (line 121): a match
exists exactly when `low` contains at least one digit. -/
def has_short_number (low : String) : Bool := hasDigit low

/-- `AIManager._is_useful_response` (lines 85-125). `none` models a `None`
argument; the `not response` guard of line 87 is falsy-equivalent to the
length guard for the empty string, so the embedding keeps only the match
on absence plus the length test. -/
def is_useful_response (response : Option String) (query_type : String) : Bool :=
  match response with
  | none => false
  | some resp =>
    if resp.length < 50 then false
    else
      let low := pyLower resp
      if useless_phrases.any (fun p => strContains low p) then
        strContains low "correo" || strContains low "teléfono" ||
        strContains low "presencialmente" || strContains low "dirección"
      else if moneyLabels.contains query_type
              && (strContains low "costo" || strContains low "pago" ||
                  strContains low "precio")
              && !has_money_figures low then
        false
      else if dateLabels.contains query_type
              && !(has_short_number low ||
                   months.any (fun m => strContains low m)) then
        false
      else true

/-- The mutable rate-limit fields of `AIManager` (lines 49-50). Times are
in whole seconds. -/
structure AIState where
  gemini_cooldown_until : Nat
  gemini_consecutive_429 : Nat
deriving DecidableEq

/-- `AIManager.GEMINI_COOLDOWN` (line 43). -/
def GEMINI_COOLDOWN : Nat := 60

/-- `AIManager._can_call_gemini` (lines 62-72); `hasGeminiKey` models the
presence of `GEMINI_API_KEY`, `now` models `time.time()`. -/
def can_call_gemini (hasGeminiKey : Bool) (st : AIState) (now : Nat) : Bool :=
  if !hasGeminiKey then false
  else if now < st.gemini_cooldown_until then false
  else true

/-- `AIManager._handle_gemini_error` (lines 74-83): on a throttling error
(error text containing "429" or "Resource exhausted") increment the
consecutive-429 counter and set the cooldown deadline to now plus
`min(GEMINI_COOLDOWN * 2^(count-1), 600)`; other errors leave the state
unchanged. -/
def handle_gemini_error (st : AIState) (error_str : String) (now : Nat) : AIState :=
  if strContains error_str "429" || strContains error_str "Resource exhausted" then
    let count := st.gemini_consecutive_429 + 1
    let backoff := min (GEMINI_COOLDOWN * 2 ^ (count - 1)) 600
    ⟨now + backoff, count⟩
  else st

/-- Type of a provider call oracle, the shape of `_call_openrouter` and
`_call_gemini`: model name, user message, pdf context, web context and
history to an optional response text (`none` models a call failure). -/
abbrev CallFn := String → String → String → String → List String → Option String

/-- One iteration of the loop body of `_run_model_chain` (lines 175-191):
invoke the model; when the response is truthy, judge it, keeping it only
when useful; all other cases yield nothing and the chain continues. -/
def chainStep (call : String → Option String) (query_type m : String) : Option String :=
  let response := call m
  if truthy response then
    if is_useful_response response query_type then response else none
  else none

/-- `AIManager._run_model_chain` (lines 170-193), with the provider
dispatch realised by the `call` argument (the provider call with the
non-model arguments already fixed). Returns the chain result together
with the list of models actually invoked, in invocation order. -/
def run_model_chain (call : String → Option String) (models : List String)
    (query_type : String) : Option String × List String :=
  match models with
  | [] => (none, [])
  | m :: rest =>
    match chainStep call query_type m with
    | some r => (some r, [m])
    | none =>
      let t := run_model_chain call rest query_type
      (t.1, m :: t.2)

/-- Result of one `generate_response` run: the returned value plus the
model names invoked on each provider (the observable call trace). -/
structure GenResult where
  result : Option String
  or_calls : List String
  gm_calls : List String
deriving DecidableEq

/-- `AIManager.generate_response` (lines 134-168): classify the query, run
the OpenRouter chain on the pdf context truncated to 200000 characters,
return its response when truthy and judged useful; otherwise, when the
Gemini gate permits, run the Gemini chain on the full pdf context and
return its response when truthy; finally fall back to the OpenRouter
chain value. -/
def generate_response (call_or call_gm : CallFn)
    (openrouter_models gemini_models : List String)
    (hasGeminiKey : Bool) (st : AIState) (now : Nat)
    (user_message pdf_context web_context : String)
    (history : List String) : GenResult :=
  let query_type := classify_query user_message
  let context_limited := pdf_context.take 200000
  let orRun := run_model_chain
    (fun m => call_or m user_message context_limited web_context history)
    openrouter_models query_type
  if truthy orRun.1 && is_useful_response orRun.1 query_type then
    ⟨orRun.1, orRun.2, []⟩
  else if can_call_gemini hasGeminiKey st now then
    let gmRun := run_model_chain
      (fun m => call_gm m user_message pdf_context web_context history)
      gemini_models query_type
    if truthy gmRun.1 then ⟨gmRun.1, orRun.2, gmRun.2⟩
    else ⟨orRun.1, orRun.2, gmRun.2⟩
  else ⟨orRun.1, orRun.2, []⟩

/-- Concrete call oracle that always fails (used to instantiate theorems
at a concrete input). -/
def noneCall : CallFn := fun _ _ _ _ _ => none

/-- A 50-character response, long enough to pass the length gate and free
of every phrase and pattern the judge inspects. -/
def wRespA : String := "aaaaaaaaaaaaaaaaaaaaaaaaaaaaaaaaaaaaaaaaaaaaaaaaaa"

/-- A second such 50-character response. -/
def wRespB : String := "bbbbbbbbbbbbbbbbbbbbbbbbbbbbbbbbbbbbbbbbbbbbbbbbbb"

/-- A third such 50-character response. -/
def wRespC : String := "cccccccccccccccccccccccccccccccccccccccccccccccccc"

/-- Concrete call oracle that always answers with `wRespA`. -/
def constCallA : CallFn := fun _ _ _ _ _ => some wRespA

/-- Concrete call oracle that always answers with `wRespC`. -/
def constCallC : CallFn := fun _ _ _ _ _ => some wRespC

/-- Concrete single-argument call: only the model named "m2" answers. -/
def chainCallB (m : String) : Option String :=
  if m == "m2" then some wRespB else none

/-- A long response that contains an I-do-not-know phrase together with a
contact indicator. -/
def phraseWitnessResp : String :=
  "no encuentro información específica en los documentos, escriba al correo: admision@jva.edu.pe"

/-- A long response that mentions a cost word but carries no figure. -/
def moneyWitnessResp : String :=
  "el costo del programa de estudios varía según la especialidad elegida"

/-- A long response that carries a concrete day number and month name. -/
def dateWitnessResp : String :=
  "el plazo de matrícula vence el 15 de marzo del presente año"

theorem chainStep_some (call : String → Option String) (qt m r : String)
    (h : chainStep call qt m = some r) :
    call m = some r ∧ is_useful_response (some r) qt = true := by
  simp only [chainStep] at h
  cases hc : call m with
  | none => rw [hc] at h; simp [truthy] at h
  | some r0 =>
    rw [hc] at h
    split at h
    next ht =>
      split at h
      next hu =>
        injection h with h2
        subst h2
        exact ⟨rfl, hu⟩
      next hu => exact absurd h (by simp)
    next ht => exact absurd h (by simp)

theorem run_chain_useful (call : String → Option String) (qt : String) :
    ∀ (models : List String) (r : String),
      (run_model_chain call models qt).1 = some r →
      is_useful_response (some r) qt = true := by
  intro models
  induction models with
  | nil => intro r h; simp [run_model_chain] at h
  | cons m rest ih =>
    intro r h
    unfold run_model_chain at h
    cases hs : chainStep call qt m with
    | some r0 =>
      rw [hs] at h
      simp at h
      exact h ▸ (chainStep_some call qt m r0 hs).2
    | none =>
      rw [hs] at h
      exact ih r h

theorem useful_truthy (r qt : String)
    (h : is_useful_response (some r) qt = true) : truthy (some r) = true := by
  rcases eq_or_ne r "" with he | he
  · subst he
    have hf : is_useful_response (some "") qt = false := rfl
    rw [hf] at h
    exact absurd h (by simp)
  · simp [truthy, he]

theorem run_chain_first (call : String → Option String) (qt : String) :
    ∀ (models : List String) (i : Nat) (m r : String),
      models[i]? = some m →
      ((models.take i).all fun x => (chainStep call qt x).isNone) = true →
      chainStep call qt m = some r →
      run_model_chain call models qt = (some r, models.take (i + 1)) := by
  intro models
  induction models with
  | nil => intro i m r hget _ _; simp at hget
  | cons m0 rest ih =>
    intro i m r hget hprev hstep
    cases i with
    | zero =>
      rw [List.getElem?_cons_zero] at hget
      injection hget with hget
      subst hget
      unfold run_model_chain
      rw [hstep]
      rfl
    | succ i =>
      rw [List.getElem?_cons_succ] at hget
      rw [List.take_succ_cons, List.all_cons] at hprev
      rw [Bool.and_eq_true] at hprev
      obtain ⟨h0, hrest⟩ := hprev
      have h0n : chainStep call qt m0 = none := by
        cases hc : chainStep call qt m0
        · rfl
        · rw [hc] at h0; simp at h0
      unfold run_model_chain
      rw [h0n]
      rw [ih i m r hget hrest hstep]
      rfl

theorem run_chain_exhaust (call : String → Option String) (qt : String) :
    ∀ (models : List String),
      (models.all fun x => (chainStep call qt x).isNone) = true →
      run_model_chain call models qt = (none, models) := by
  intro models
  induction models with
  | nil => intro _; rfl
  | cons m0 rest ih =>
    intro hall
    rw [List.all_cons, Bool.and_eq_true] at hall
    obtain ⟨h0, hrest⟩ := hall
    have h0n : chainStep call qt m0 = none := by
      cases hc : chainStep call qt m0
      · rfl
      · rw [hc] at h0; simp at h0
    unfold run_model_chain
    rw [h0n, ih hrest]

theorem classify_go_first (low : String) :
    ∀ (l : List (String × List String)) (i : Nat) (lbl : String) (kws : List String),
      l[i]? = some (lbl, kws) →
      ((l.take i).all fun e => e.2.all fun kw => !strContains low kw) = true →
      (kws.any fun kw => strContains low kw) = true →
      classify_go low l = lbl := by
  intro l
  induction l with
  | nil => intro i lbl kws hget _ _; simp at hget
  | cons e rest ih =>
    intro i lbl kws hget hprev hany
    obtain ⟨q, ks⟩ := e
    cases i with
    | zero =>
      rw [List.getElem?_cons_zero] at hget
      injection hget with hget
      injection hget with hq hk
      subst hq
      subst hk
      unfold classify_go
      rw [if_pos hany]
    | succ i =>
      rw [List.getElem?_cons_succ] at hget
      rw [List.take_succ_cons, List.all_cons, Bool.and_eq_true] at hprev
      obtain ⟨h0, hrest⟩ := hprev
      have h0f : (ks.any fun kw => strContains low kw) = false := by
        rw [List.any_eq_false]
        intro kw hkw
        have := List.all_eq_true.mp h0 kw hkw
        simpa using this
      unfold classify_go
      rw [h0f]
      simp only [Bool.false_eq_true, if_false]
      exact ih i lbl kws hget hrest hany

theorem classify_go_none (low : String) :
    ∀ (l : List (String × List String)),
      (l.all fun e => e.2.all fun kw => !strContains low kw) = true →
      classify_go low l = "general" := by
  intro l
  induction l with
  | nil => intro _; rfl
  | cons e rest ih =>
    intro hall
    obtain ⟨q, ks⟩ := e
    rw [List.all_cons, Bool.and_eq_true] at hall
    obtain ⟨h0, hrest⟩ := hall
    have h0f : (ks.any fun kw => strContains low kw) = false := by
      rw [List.any_eq_false]
      intro kw hkw
      have := List.all_eq_true.mp h0 kw hkw
      simpa using this
    unfold classify_go
    rw [h0f]
    simp only [Bool.false_eq_true, if_false]
    exact ih hrest

theorem classify_go_mem (low : String) :
    ∀ (l : List (String × List String)),
      classify_go low l = "general" ∨ classify_go low l ∈ l.map Prod.fst := by
  intro l
  induction l with
  | nil => exact Or.inl rfl
  | cons e rest ih =>
    obtain ⟨q, ks⟩ := e
    unfold classify_go
    by_cases hq : (ks.any fun kw => strContains low kw) = true
    · rw [if_pos hq]
      exact Or.inr (by simp)
    · rw [if_neg hq]
      rcases ih with h | h
      · exact Or.inl h
      · exact Or.inr (by simp [h])

/-- C3: for every provider call and classified label, the chain runner
invokes the configured models strictly in list order and returns the first
response judged useful, invoking exactly the models up to and including
that one (index + 1 calls) and never invoking any later model; when every
model either fails to respond or is judged not useful, it returns `none`
after invoking every model. -/
theorem run_model_chain_order_spec (call : String → Option String)
    (models : List String) (qt : String) :
    (∀ i m r, models[i]? = some m →
      ((models.take i).all fun x => (chainStep call qt x).isNone) = true →
      chainStep call qt m = some r →
      run_model_chain call models qt = (some r, models.take (i + 1)) ∧
        (models.take (i + 1)).length = i + 1)
    ∧ ((models.all fun x => (chainStep call qt x).isNone) = true →
      run_model_chain call models qt = (none, models)) := by
  constructor
  · intro i m r hget hprev hstep
    have hlt : i < models.length := by
      by_contra hh
      push_neg at hh
      rw [List.getElem?_eq_none hh] at hget
      exact absurd hget (by simp)
    refine ⟨run_chain_first call qt models i m r hget hprev hstep, ?_⟩
    rw [List.length_take]
    omega
  · exact run_chain_exhaust call qt models

theorem run_model_chain_order_spec_witness :
    chainStep chainCallB "general" "m2" = some wRespB ∧
    run_model_chain chainCallB ["m1", "m2", "m3"] "general"
      = (some wRespB, ["m1", "m2"]) ∧
    (["m1", "m2"] : List String).length = 1 + 1 := by
  have h := (run_model_chain_order_spec chainCallB ["m1", "m2", "m3"] "general").1
    1 "m2" wRespB (by decide) (by decide) (by decide)
  exact ⟨by decide, h.1, h.2⟩

/-- C4: on the n-th consecutive throttling error (error text containing
"429" or "Resource exhausted"), the handler sets the consecutive counter
to n and the cooldown deadline to now plus min(60 * 2^(n-1), 600): 60
seconds after one throttling error, 120 after two, capped at 600 by the
sixth. -/
theorem handle_gemini_error_backoff_spec (st : AIState) (err : String) (now : Nat)
    (h : strContains err "429" = true ∨ strContains err "Resource exhausted" = true) :
    (handle_gemini_error st err now).gemini_consecutive_429
        = st.gemini_consecutive_429 + 1 ∧
    (handle_gemini_error st err now).gemini_cooldown_until
        = now + min (60 * 2 ^ st.gemini_consecutive_429) 600 ∧
    (st.gemini_consecutive_429 = 0 →
      (handle_gemini_error st err now).gemini_cooldown_until = now + 60) ∧
    (st.gemini_consecutive_429 = 1 →
      (handle_gemini_error st err now).gemini_cooldown_until = now + 120) ∧
    (st.gemini_consecutive_429 = 5 →
      (handle_gemini_error st err now).gemini_cooldown_until = now + 600) := by
  have hcond : (strContains err "429" || strContains err "Resource exhausted") = true := by
    rcases h with h | h <;> simp [h]
  have hst : handle_gemini_error st err now =
      ⟨now + min (60 * 2 ^ st.gemini_consecutive_429) 600,
        st.gemini_consecutive_429 + 1⟩ := by
    unfold handle_gemini_error
    rw [if_pos hcond]
    simp [GEMINI_COOLDOWN]
  rw [hst]
  refine ⟨rfl, rfl, ?_, ?_, ?_⟩
  · intro h0; rw [h0]; norm_num
  · intro h0; rw [h0]; norm_num
  · intro h0; rw [h0]; norm_num

theorem handle_gemini_error_backoff_spec_witness :
    strContains "Error 429: quota" "429" = true ∧
    (handle_gemini_error ⟨0, 0⟩ "Error 429: quota" 1000).gemini_consecutive_429 = 1 ∧
    (handle_gemini_error ⟨0, 0⟩ "Error 429: quota" 1000).gemini_cooldown_until = 1060 := by
  have h := handle_gemini_error_backoff_spec ⟨0, 0⟩ "Error 429: quota" 1000
    (Or.inl (by decide))
  exact ⟨by decide, by simpa using h.1, by simpa using h.2.2.1 rfl⟩

/-- C5: `classify_query` returns the first label, in the enumeration order
of QUERY_CLASSIFICATIONS, one of whose keywords occurs case-insensitively
in the message; it returns "general" when no keyword of any label occurs;
and every message (the empty string included) yields exactly one label,
drawn from the table or equal to "general". -/
theorem classify_query_first_match_spec (msg : String) :
    (∀ i lbl kws, QUERY_CLASSIFICATIONS[i]? = some (lbl, kws) →
      ((QUERY_CLASSIFICATIONS.take i).all
          fun e => e.2.all fun kw => !strContains (pyLower msg) kw) = true →
      (kws.any fun kw => strContains (pyLower msg) kw) = true →
      classify_query msg = lbl)
    ∧ ((QUERY_CLASSIFICATIONS.all
          fun e => e.2.all fun kw => !strContains (pyLower msg) kw) = true →
      classify_query msg = "general")
    ∧ (classify_query msg = "general" ∨
        classify_query msg ∈ QUERY_CLASSIFICATIONS.map Prod.fst) := by
  refine ⟨?_, ?_, ?_⟩
  · intro i lbl kws hget hprev hany
    exact classify_go_first (pyLower msg) QUERY_CLASSIFICATIONS i lbl kws hget hprev hany
  · intro hall
    exact classify_go_none (pyLower msg) QUERY_CLASSIFICATIONS hall
  · exact classify_go_mem (pyLower msg) QUERY_CLASSIFICATIONS

theorem classify_query_first_match_spec_witness :
    QUERY_CLASSIFICATIONS[13]? =
      some ("saludo", ["hola", "buenos días", "buenas tardes", "saludos"]) ∧
    classify_query "Hola" = "saludo" := by
  refine ⟨by decide, ?_⟩
  exact (classify_query_first_match_spec "Hola").1 13 "saludo"
    ["hola", "buenos días", "buenas tardes", "saludos"] (by decide) (by decide) (by decide)

/-- C6: for every label, the usefulness judge rejects an absent response
and any response shorter than 50 characters, before any other rule is
consulted. -/
theorem is_useful_response_absence_gate (qt : String) :
    is_useful_response none qt = false ∧
    ∀ r : String, r.length < 50 → is_useful_response (some r) qt = false := by
  refine ⟨rfl, ?_⟩
  intro r h
  simp [is_useful_response, h]

theorem is_useful_response_absence_gate_witness :
    ("corto".length < 50) ∧
    is_useful_response none "costos" = false ∧
    is_useful_response (some "corto") "costos" = false :=
  ⟨by decide, (is_useful_response_absence_gate "costos").1,
    (is_useful_response_absence_gate "costos").2 "corto" (by decide)⟩

/-- C7: for a response of length at least 50 whose lowered text contains
one of the I-do-not-know phrases, the judge returns exactly the
contact-indicator test — true when the lowered response contains "correo",
"teléfono", "presencialmente" or "dirección", false otherwise — for every
label, so in that case the money and date rules are never consulted. -/
theorem is_useful_response_phrase_rule (r qt : String)
    (hlen : 50 ≤ r.length)
    (hph : (useless_phrases.any fun p => strContains (pyLower r) p) = true) :
    is_useful_response (some r) qt =
      (strContains (pyLower r) "correo" || strContains (pyLower r) "teléfono" ||
       strContains (pyLower r) "presencialmente" || strContains (pyLower r) "dirección") := by
  have hlt : ¬ r.length < 50 := not_lt.mpr hlen
  simp [is_useful_response, hlt, hph]

theorem is_useful_response_phrase_rule_witness :
    50 ≤ phraseWitnessResp.length ∧
    (useless_phrases.any fun p => strContains (pyLower phraseWitnessResp) p) = true ∧
    is_useful_response (some phraseWitnessResp) "general" = true := by
  refine ⟨by decide, by decide, ?_⟩
  rw [is_useful_response_phrase_rule phraseWitnessResp "general" (by decide) (by decide)]
  decide

/-- C8: for a money-sensitive label (costos, matrícula or titulación) and
a response of length at least 50 with no I-do-not-know phrase, mentioning
a cost word (costo, pago or precio) while matching no currency or number
pattern, the judge returns false. -/
theorem is_useful_response_money_rule (r qt : String)
    (hqt : qt = "costos" ∨ qt = "matrícula" ∨ qt = "titulación")
    (hlen : 50 ≤ r.length)
    (hph : (useless_phrases.any fun p => strContains (pyLower r) p) = false)
    (hcost : (strContains (pyLower r) "costo" || strContains (pyLower r) "pago" ||
              strContains (pyLower r) "precio") = true)
    (hfig : has_money_figures (pyLower r) = false) :
    is_useful_response (some r) qt = false := by
  have hlt : ¬ r.length < 50 := not_lt.mpr hlen
  have hmem : qt ∈ moneyLabels := by
    rcases hqt with h | h | h <;> subst h <;> decide
  simp [is_useful_response, hlt, hph, hcost, hfig]
  exact fun hn => absurd hmem hn

theorem is_useful_response_money_rule_witness :
    50 ≤ moneyWitnessResp.length ∧
    has_money_figures (pyLower moneyWitnessResp) = false ∧
    is_useful_response (some moneyWitnessResp) "costos" = false := by
  refine ⟨by decide, by decide, ?_⟩
  exact is_useful_response_money_rule moneyWitnessResp "costos" (Or.inl rfl)
    (by decide) (by decide) (by decide) (by decide)

/-- C9: for a date-sensitive label (fechas or cronograma) and a response
of length at least 50 that passed the preceding rules (no I-do-not-know
phrase; the money rule cannot fire for these labels), the judge returns
exactly the date test: true when the lowered response contains a digit or
a Spanish month name, false otherwise. -/
theorem is_useful_response_date_rule (r qt : String)
    (hqt : qt = "fechas" ∨ qt = "cronograma")
    (hlen : 50 ≤ r.length)
    (hph : (useless_phrases.any fun p => strContains (pyLower r) p) = false) :
    is_useful_response (some r) qt =
      (has_short_number (pyLower r) ||
        months.any fun m => strContains (pyLower r) m) := by
  have hlt : ¬ r.length < 50 := not_lt.mpr hlen
  have hmem : qt ∉ moneyLabels := by
    rcases hqt with h | h <;> subst h <;> decide
  have hdate : qt ∈ dateLabels := by
    rcases hqt with h | h <;> subst h <;> decide
  cases hx : (has_short_number (pyLower r) ||
      months.any fun m => strContains (pyLower r) m) with
  | false =>
    simp [is_useful_response, hlt, hph, hx]
    exact fun _ => hdate
  | true =>
    simp [is_useful_response, hlt, hph, hx]
    exact Or.inl (Or.inl hmem)

theorem is_useful_response_date_rule_witness :
    50 ≤ dateWitnessResp.length ∧
    is_useful_response (some dateWitnessResp) "fechas" = true := by
  refine ⟨by decide, ?_⟩
  rw [is_useful_response_date_rule dateWitnessResp "fechas" (Or.inl rfl)
    (by decide) (by decide)]
  decide

/-- C1: when the OpenRouter chain exhausts all its models with no useful
response, and the Gemini chain is blocked by the rate-limit gate or the
missing credential or also exhausts with no response, `generate_response`
returns `none` and not any non-useful candidate text. -/
theorem generate_response_exhausted_absent
    (call_or call_gm : CallFn) (orM gmM : List String) (hasKey : Bool)
    (st : AIState) (now : Nat) (msg pdf web : String) (hist : List String)
    (hor : (run_model_chain
        (fun m => call_or m msg (pdf.take 200000) web hist) orM
        (classify_query msg)).1 = none)
    (hgm : can_call_gemini hasKey st now = false ∨
        (run_model_chain (fun m => call_gm m msg pdf web hist) gmM
          (classify_query msg)).1 = none) :
    (generate_response call_or call_gm orM gmM hasKey st now msg pdf web hist).result
      = none := by
  rcases hgm with h | h
  · simp [generate_response, hor, h, truthy]
  · cases hcc : can_call_gemini hasKey st now
    · simp [generate_response, hor, hcc, truthy]
    · simp [generate_response, hor, h, hcc, truthy]

theorem generate_response_exhausted_absent_witness :
    (run_model_chain (fun m => noneCall m "" (("" : String).take 200000) "" []) ["a"]
        (classify_query "")).1 = none ∧
    (generate_response noneCall noneCall ["a"] ["b"] true ⟨0, 0⟩ 0 "" "" "" []).result
      = none := by
  refine ⟨by decide, ?_⟩
  exact generate_response_exhausted_absent noneCall noneCall ["a"] ["b"] true ⟨0, 0⟩ 0
    "" "" "" [] (by decide) (Or.inr (by decide))

/-- C2: when the OpenRouter chain yields a response (necessarily judged
useful for the classified label), `generate_response` returns exactly that
response and invokes no Gemini model at all. -/
theorem generate_response_cheap_short_circuit
    (call_or call_gm : CallFn) (orM gmM : List String) (hasKey : Bool)
    (st : AIState) (now : Nat) (msg pdf web : String) (hist : List String)
    (r : String)
    (hor : (run_model_chain
        (fun m => call_or m msg (pdf.take 200000) web hist) orM
        (classify_query msg)).1 = some r) :
    (generate_response call_or call_gm orM gmM hasKey st now msg pdf web hist).result
        = some r ∧
    (generate_response call_or call_gm orM gmM hasKey st now msg pdf web hist).gm_calls
        = [] := by
  have hu : is_useful_response (some r) (classify_query msg) = true :=
    run_chain_useful _ _ orM r hor
  have ht : truthy (some r) = true := useful_truthy r _ hu
  constructor <;> simp [generate_response, hor, ht, hu]

theorem generate_response_cheap_short_circuit_witness :
    (run_model_chain (fun m => constCallA m "q" (("" : String).take 200000) "" []) ["o1"]
        (classify_query "q")).1 = some wRespA ∧
    (generate_response constCallA noneCall ["o1"] ["g1"] true ⟨0, 0⟩ 0 "q" "" "" []).result
        = some wRespA ∧
    (generate_response constCallA noneCall ["o1"] ["g1"] true ⟨0, 0⟩ 0 "q" "" "" []).gm_calls
        = [] := by
  have h := generate_response_cheap_short_circuit constCallA noneCall ["o1"] ["g1"]
    true ⟨0, 0⟩ 0 "q" "" "" [] wRespA (by decide)
  exact ⟨by decide, h.1, h.2⟩

/-- C10: every non-absent value returned by `generate_response` satisfies
the usefulness judge for the label classified from the user message: both
the early OpenRouter return and the final fallback value originate from a
chain runner that only returns judged-useful responses or `none`. -/
theorem generate_response_useful_invariant
    (call_or call_gm : CallFn) (orM gmM : List String) (hasKey : Bool)
    (st : AIState) (now : Nat) (msg pdf web : String) (hist : List String)
    (r : String)
    (h : (generate_response call_or call_gm orM gmM hasKey st now msg pdf web hist).result
        = some r) :
    is_useful_response (some r) (classify_query msg) = true := by
  cases hor : (run_model_chain
      (fun m => call_or m msg (pdf.take 200000) web hist) orM
      (classify_query msg)).1 with
  | some r0 =>
    have hu := run_chain_useful _ _ orM r0 hor
    have ht := useful_truthy r0 _ hu
    simp [generate_response, hor, ht, hu] at h
    exact h ▸ hu
  | none =>
    cases hcc : can_call_gemini hasKey st now with
    | false => simp [generate_response, hor, hcc, truthy] at h
    | true =>
      cases hgm : (run_model_chain (fun m => call_gm m msg pdf web hist) gmM
          (classify_query msg)).1 with
      | some g =>
        have hu := run_chain_useful _ _ gmM g hgm
        have hge : g ≠ "" := by simpa [truthy] using useful_truthy g _ hu
        simp [generate_response, hor, hcc, hgm, hge, truthy] at h
        exact h ▸ hu
      | none => simp [generate_response, hor, hcc, hgm, truthy] at h

theorem generate_response_useful_invariant_witness :
    (generate_response noneCall constCallC ["o1"] ["g1"] true ⟨0, 0⟩ 5 "zzz" "" "" []).result
        = some wRespC ∧
    is_useful_response (some wRespC) (classify_query "zzz") = true := by
  refine ⟨by decide, ?_⟩
  exact generate_response_useful_invariant noneCall constCallC ["o1"] ["g1"] true ⟨0, 0⟩ 5
    "zzz" "" "" [] wRespC (by decide)
